import Mathlib

/-!
Verification of the India electricity-plan linear-program builder
(`india-electricity-plan/model_gurobi.py`).

The script loads three CSV tables, derives per-source parameters, builds a
Gurobi LP (investment variables per (source, year), six families of slack
variables, a penalized objective, and soft constraints), solves it, and
prints a report.  This development shallowly embeds that pipeline:

* `Input` holds the two tables the model actually uses (the
  potential-plants table is read by the script but its columns are never
  used in the model or the report, so it is not represented).
* Parameter extraction (`capital_cost`, `current_capacity`,
  `emission_factors`, `target_capacity`, `filtered_sources`, the fixed
  `capacity_factors` table, the budget constants) mirrors lines 32-64 and
  100-106 of the script.  Python `dict(zip(..))` and dict comprehensions
  are later-entry-wins; `lastRow?` / `lastVal` reproduce that.
* `buildModel` replays the model-construction phase in program order,
  recording the names of Gurobi constraints added so far (first
  component) and either a `BuildError` (a Python `KeyError` or
  `ZeroDivisionError`, tagged with the phase at which it is raised) or
  the numeric data of the completed model (`BuiltModel`).
* `feasible`/`objective` give the LP semantics of the built model over an
  assignment of variable values (`Valuation`), and `analyze` embeds the
  Optimal-branch report (lines 184-246) as a structured `Report`.

All arithmetic is exact rational arithmetic; Python floats are idealized
as the rationals their literals denote.
-/

namespace IndiaPlan

/-- One row of the emissions/cost table
(`indian_electricity_sources_with_emissions.csv`): columns `Source`,
`Capital Cost (₹/MW)`, `Current Production (MW)`,
`Emission Factor (kg CO2/kWh)`. -/
structure SourceRow where
  name : String
  capitalCost : ℚ
  currentCapacity : ℚ
  emissionFactor : ℚ
deriving DecidableEq, Repr

/-- One row of the goals table
(`final_government_goals_2030_with_percent.csv`): columns `Goal`,
`Target Value` (gigawatts). -/
structure GoalRow where
  goal : String
  targetValue : ℚ
deriving DecidableEq, Repr

/-- The tabular inputs used by the model (the potential-plants table is
loaded by the script but never used downstream). -/
structure Input where
  emissionsData : List SourceRow
  goalsData : List GoalRow
deriving DecidableEq, Repr

/-- `years = list(range(2024, 2031))` (line 33). -/
def years : List ℕ := [2024, 2025, 2026, 2027, 2028, 2029, 2030]

/-- The fixed capacity-factor table (lines 39-42). -/
def capacity_factors : String → Option ℚ := fun s =>
  match s with
  | "Solar" => some 0.2
  | "Wind" => some 0.3
  | "Hydropower" => some 0.4
  | "Biomass" => some 0.7
  | "Nuclear" => some 0.9
  | "Coal" => some 0.8
  | "Natural Gas" => some 0.5
  | _ => none

/-- `goal_mappings` (lines 45-53): the seven recognized goal labels. -/
def goal_mappings : String → Option String := fun g =>
  match g with
  | "Coal Capacity (GW)" => some "Coal"
  | "Natural Gas Capacity (GW)" => some "Natural Gas"
  | "Nuclear Capacity (GW)" => some "Nuclear"
  | "Solar Capacity (GW)" => some "Solar"
  | "Wind Capacity (GW)" => some "Wind"
  | "Hydropower Capacity (GW)" => some "Hydropower"
  | "Biomass Capacity (GW)" => some "Biomass"
  | _ => none

/-- First row of a list whose `Source` equals `s`. -/
def firstRow? : List SourceRow → String → Option SourceRow
  | [], _ => none
  | r :: rest, s => if r.name = s then some r else firstRow? rest s

/-- Last row of the emissions table whose `Source` equals `s`:
`dict(zip(..))` keeps the last occurrence of a duplicated key. -/
def lastRow? (rows : List SourceRow) (s : String) : Option SourceRow :=
  firstRow? rows.reverse s

/-- `capital_cost` dict (line 36). -/
def capital_cost (inp : Input) (s : String) : Option ℚ :=
  (lastRow? inp.emissionsData s).map (·.capitalCost)

/-- `current_capacity` dict (line 37). -/
def current_capacity (inp : Input) (s : String) : Option ℚ :=
  (lastRow? inp.emissionsData s).map (·.currentCapacity)

/-- `emission_factors` dict (line 38). -/
def emission_factors (inp : Input) (s : String) : Option ℚ :=
  (lastRow? inp.emissionsData s).map (·.emissionFactor)

/-- The `(source, Target Value * 1000)` pairs produced by the
`target_capacity` dict comprehension (lines 55-59), in row order,
keeping only rows whose `Goal` label is recognized. -/
def goalPairs (inp : Input) : List (String × ℚ) :=
  inp.goalsData.filterMap
    (fun r => (goal_mappings r.goal).map (fun n => (n, r.targetValue * 1000)))

/-- First value bound to key `s` in an association list. -/
def firstVal : List (String × ℚ) → String → Option ℚ
  | [], _ => none
  | p :: rest, s => if p.1 = s then some p.2 else firstVal rest s

/-- Last value bound to key `s` in an association list (dict-comprehension
semantics: a later row overwrites an earlier one). -/
def lastVal (l : List (String × ℚ)) (s : String) : Option ℚ :=
  firstVal l.reverse s

/-- The `target_capacity` dict (lines 55-59), in MW. -/
def target_capacity (inp : Input) (s : String) : Option ℚ :=
  lastVal (goalPairs inp) s

/-- `sources = emissions_data["Source"].tolist()` (line 32). -/
def sources (inp : Input) : List String :=
  inp.emissionsData.map (·.name)

/-- `filtered_sources` (line 64): sources of the cost table that have a
target-capacity entry, in table order. -/
def filtered_sources (inp : Input) : List String :=
  (sources inp).filter (fun s => (target_capacity inp s).isSome)

/-- `renewable_sources` (line 114). -/
def renewable_sources : List String := ["Solar", "Wind", "Hydropower", "Biomass"]

/-- `penalty_factor = 1.1` (line 79). -/
def penalty_factor : ℚ := 1.1

/-- `total_investment_budget = 44*10e11` (line 100).  The Python literal
`10e11` denotes 10^12, so this is 44 * 10^12. -/
def total_investment_budget : ℚ := 44 * (10 * 10 ^ 11)

/-- `average_annual_investment = total_investment_budget / len(years)` (line 101). -/
def average_annual_investment : ℚ := total_investment_budget / (years.length : ℚ)

/-- `min_annual_budget = 0.8 * average_annual_investment` (line 105). -/
def min_annual_budget : ℚ := 0.8 * average_annual_investment

/-- `max_annual_budget = 1.2 * average_annual_investment` (line 106). -/
def max_annual_budget : ℚ := 1.2 * average_annual_investment

/-- The kind of Python exception raised during model construction:
a `KeyError` on a dict (or on the `investment` tupledict), or a
`ZeroDivisionError` from dividing a linear expression by a zero
capital cost. -/
inductive ErrKind where
  | keyError (dict key : String)
  | zeroDivisionError (site : String)
deriving DecidableEq, Repr

/-- The point in the model-construction sequence at which an exception is
raised (line ranges of the script): the per-source target-constraint loop
(91-98), the renewable target calculations (115-122), the
`Renewable_Capacity` constraint (124-130), the `Renewable_Production`
constraint (132-138), the emission-target calculation (143-150), or the
`Emissions` constraint (169-175). -/
inductive BuildPhase where
  | targetConstraints
  | renewableTargets
  | renewableCapacityConstraint
  | renewableProductionConstraint
  | emissionTargetCalc
  | emissionsConstraint
deriving DecidableEq, Repr

/-- An uncaught exception during model construction, with the phase
at which it is raised. -/
structure BuildError where
  phase : BuildPhase
  kind : ErrKind
deriving DecidableEq, Repr

/-- Numeric data of the fully constructed model: everything the
constraints, objective, and result analysis read. -/
structure BuiltModel where
  filteredSources : List String
  targetCost : List (String × ℚ)
  minAnnualBudget : ℚ
  maxAnnualBudget : ℚ
  renewCapTarget : ℚ
  renewProdTarget : ℚ
  emissionTarget : ℚ
  capCost : List (String × ℚ)
  emisFactor : List (String × ℚ)
  capFactor : List (String × ℚ)
deriving DecidableEq, Repr, Inhabited

/-- The target-constraint loop (lines 91-98): for each filtered source,
look up target capacity, current capacity, and capital cost, compute
`total_target_cost = (target - current) * capital_cost`, and add
constraint `Target_<source>`.  Returns the names of the constraints
added (a source's constraint is added before a later source fails) and
either the `(source, total_target_cost)` list or the first error. -/
def targetFold (inp : Input) : List String → List String × Except BuildError (List (String × ℚ))
  | [] => ([], .ok [])
  | s :: rest =>
    match target_capacity inp s, current_capacity inp s, capital_cost inp s with
    | some t, some c, some k =>
      match targetFold inp rest with
      | (ns, r) => (("Target_" ++ s) :: ns, r.map (fun l => (s, (t - c) * k) :: l))
    | none, _, _ => ([], .error ⟨.targetConstraints, .keyError "target_capacity" s⟩)
    | some _, none, _ => ([], .error ⟨.targetConstraints, .keyError "current_capacity" s⟩)
    | some _, some _, none => ([], .error ⟨.targetConstraints, .keyError "capital_cost" s⟩)

/-- Names of the annual budget constraints added by lines 108-110
(no data lookup occurs there, so this phase cannot fail). -/
def budget_names : List String :=
  years.flatMap (fun y => ["Min_Budget_" ++ toString y, "Max_Budget_" ++ toString y])

/-- `total_renewable_capacity_target` (line 115): sum of
`target_capacity[s]` over the hardcoded renewable list; a missing key
raises `KeyError` while computing the renewable targets. -/
def sumTargetCapacity (inp : Input) : List String → Except BuildError ℚ
  | [] => .ok 0
  | s :: rest =>
    match target_capacity inp s with
    | some t => (sumTargetCapacity inp rest).map (fun r => t + r)
    | none => .error ⟨.renewableTargets, .keyError "target_capacity" s⟩

/-- `total_renewable_production_target` (lines 116-122): sum of
`(target - current) * capacity_factor * 8760 / 1e6` over the renewable
list, with the lookups in source evaluation order. -/
def sumProdTarget (inp : Input) : List String → Except BuildError ℚ
  | [] => .ok 0
  | s :: rest =>
    match target_capacity inp s, current_capacity inp s, capacity_factors s with
    | some t, some c, some f =>
      (sumProdTarget inp rest).map (fun r => (t - c) * f * 8760 / 1000000 + r)
    | none, _, _ => .error ⟨.renewableTargets, .keyError "target_capacity" s⟩
    | some _, none, _ => .error ⟨.renewableTargets, .keyError "current_capacity" s⟩
    | some _, some _, none => .error ⟨.renewableTargets, .keyError "capacity_factors" s⟩

/-- Building the `Renewable_Capacity` constraint expression (lines
124-130): for each renewable source, `investment[source, year]` raises
`KeyError` unless the source is a filtered source, and dividing by
`capital_cost[source]` raises `KeyError` on a missing entry or
`ZeroDivisionError` on a zero one. -/
def checkRenewCapC (inp : Input) : List String → Except BuildError Unit
  | [] => .ok ()
  | s :: rest =>
    if s ∈ filtered_sources inp then
      match capital_cost inp s with
      | some k =>
        if k = 0 then .error ⟨.renewableCapacityConstraint, .zeroDivisionError s⟩
        else checkRenewCapC inp rest
      | none => .error ⟨.renewableCapacityConstraint, .keyError "capital_cost" s⟩
    else .error ⟨.renewableCapacityConstraint, .keyError "investment" s⟩

/-- Building the `Renewable_Production` constraint expression (lines
132-138): as for `Renewable_Capacity`, plus a `capacity_factors` lookup. -/
def checkRenewProdC (inp : Input) : List String → Except BuildError Unit
  | [] => .ok ()
  | s :: rest =>
    if s ∈ filtered_sources inp then
      match capital_cost inp s with
      | some k =>
        if k = 0 then .error ⟨.renewableProductionConstraint, .zeroDivisionError s⟩
        else
          match capacity_factors s with
          | some _ => checkRenewProdC inp rest
          | none => .error ⟨.renewableProductionConstraint, .keyError "capacity_factors" s⟩
      | none => .error ⟨.renewableProductionConstraint, .keyError "capital_cost" s⟩
    else .error ⟨.renewableProductionConstraint, .keyError "investment" s⟩

/-- `total_emission_target`'s per-source baseline sum (lines 143-150):
`emission_factors[s] * (target - current) * capacity_factors[s] * 8760 / 1e3`
over the filtered sources. -/
def sumEmissionBaseline (inp : Input) : List String → Except BuildError ℚ
  | [] => .ok 0
  | s :: rest =>
    match emission_factors inp s, target_capacity inp s, current_capacity inp s,
        capacity_factors s with
    | some e, some t, some c, some f =>
      (sumEmissionBaseline inp rest).map (fun r => e * (t - c) * f * 8760 / 1000 + r)
    | none, _, _, _ => .error ⟨.emissionTargetCalc, .keyError "emission_factors" s⟩
    | some _, none, _, _ => .error ⟨.emissionTargetCalc, .keyError "target_capacity" s⟩
    | some _, some _, none, _ => .error ⟨.emissionTargetCalc, .keyError "current_capacity" s⟩
    | some _, some _, some _, none => .error ⟨.emissionTargetCalc, .keyError "capacity_factors" s⟩

/-- Building the `Emissions` constraint expression (lines 169-175):
divide by `capital_cost[s]` and look up `emission_factors[s]` for every
filtered source. -/
def checkEmisC (inp : Input) : List String → Except BuildError Unit
  | [] => .ok ()
  | s :: rest =>
    match capital_cost inp s with
    | some k =>
      if k = 0 then .error ⟨.emissionsConstraint, .zeroDivisionError s⟩
      else
        match emission_factors inp s with
        | some _ => checkEmisC inp rest
        | none => .error ⟨.emissionsConstraint, .keyError "emission_factors" s⟩
    | none => .error ⟨.emissionsConstraint, .keyError "capital_cost" s⟩

/-- The model-construction sequence (lines 91-175) in program order:
target constraints, budget constraints, renewable targets,
`Renewable_Capacity`, `Renewable_Production`, emission target,
`Emissions`.  The first component lists the constraints added before
the error (all of them, on success); the second is the first uncaught
exception or the completed model data. -/
def buildModel (inp : Input) : List String × Except BuildError BuiltModel :=
  match targetFold inp (filtered_sources inp) with
  | (tns, .error e) => (tns, .error e)
  | (tns, .ok tl) =>
    match sumTargetCapacity inp renewable_sources with
    | .error e => (tns ++ budget_names, .error e)
    | .ok rct =>
      match sumProdTarget inp renewable_sources with
      | .error e => (tns ++ budget_names, .error e)
      | .ok rpt =>
        match checkRenewCapC inp renewable_sources with
        | .error e => (tns ++ budget_names, .error e)
        | .ok _ =>
          match checkRenewProdC inp renewable_sources with
          | .error e => (tns ++ budget_names ++ ["Renewable_Capacity"], .error e)
          | .ok _ =>
            match sumEmissionBaseline inp (filtered_sources inp) with
            | .error e =>
              (tns ++ budget_names ++ ["Renewable_Capacity", "Renewable_Production"], .error e)
            | .ok eb =>
              match checkEmisC inp (filtered_sources inp) with
              | .error e =>
                (tns ++ budget_names ++ ["Renewable_Capacity", "Renewable_Production"], .error e)
              | .ok _ =>
                (tns ++ budget_names ++ ["Renewable_Capacity", "Renewable_Production", "Emissions"],
                 .ok { filteredSources := filtered_sources inp
                       targetCost := tl
                       minAnnualBudget := min_annual_budget
                       maxAnnualBudget := max_annual_budget
                       renewCapTarget := rct
                       renewProdTarget := rpt
                       emissionTarget := 0.43 * rpt * 1000000 + eb
                       capCost := (filtered_sources inp).filterMap
                         (fun s => (capital_cost inp s).map (fun q => (s, q)))
                       emisFactor := (filtered_sources inp).filterMap
                         (fun s => (emission_factors inp s).map (fun q => (s, q)))
                       capFactor := (filtered_sources inp).filterMap
                         (fun s => (capacity_factors s).map (fun q => (s, q))) })

/-- Outcome of the top-level run up to (and not including) the solve
call: either model construction died with an uncaught exception (listing
the constraints already added), or the completed model was handed to
`model.optimize()`. -/
inductive RunOutcome where
  | buildFailed (trace : List String) (e : BuildError)
  | solveInvoked (M : BuiltModel)
deriving DecidableEq, Repr

/-- `run`: build the model, then invoke the solver (line 182) only if
construction completed. -/
def run (inp : Input) : RunOutcome :=
  match buildModel inp with
  | (ns, .error e) => .buildFailed ns e
  | (_, .ok M) => .solveInvoked M

/-- An assignment of values to every decision and slack variable of the
model (what `.X` reads after the solve). -/
structure Valuation where
  investment : String → ℕ → ℚ
  slack_target : String → ℚ
  slack_min_budget : ℕ → ℚ
  slack_max_budget : ℕ → ℚ
  slack_renewable_capacity : ℚ
  slack_renewable_production : ℚ
  slack_emissions : ℚ

/-- Value bound to key `k` in a built model's snapshot association list
(every key the constraints use is present when construction succeeded;
`0` is a dummy for absent keys). -/
def alookupD (l : List (String × ℚ)) (k : String) : ℚ :=
  (lastVal l k).getD 0

/-- `investment.sum(source, '*')`: a source's investment summed over the
years. -/
def sourceInvestment (v : Valuation) (s : String) : ℚ :=
  (years.map (fun y => v.investment s y)).sum

/-- `investment.sum('*', year)`: a year's investment summed over the
filtered sources. -/
def yearInvestment (M : BuiltModel) (v : Valuation) (y : ℕ) : ℚ :=
  (M.filteredSources.map (fun s => v.investment s y)).sum

/-- Total investment over all (source, year) pairs. -/
def totalInvestmentMade (M : BuiltModel) (v : Valuation) : ℚ :=
  (M.filteredSources.map (fun s => sourceInvestment v s)).sum

/-- Left-hand side of the `Renewable_Capacity` constraint (lines
124-130): implied MW added over the renewable sources. -/
def renewCapLHS (M : BuiltModel) (v : Valuation) : ℚ :=
  (renewable_sources.map
    (fun s => (years.map (fun y => v.investment s y / alookupD M.capCost s)).sum)).sum

/-- Left-hand side of the `Renewable_Production` constraint (lines
132-138). -/
def renewProdLHS (M : BuiltModel) (v : Valuation) : ℚ :=
  (renewable_sources.map
    (fun s => (years.map
      (fun y => v.investment s y / alookupD M.capCost s * alookupD M.capFactor s * 8760)).sum)).sum

/-- Left-hand side of the `Emissions` constraint (lines 169-175). -/
def emissionsLHS (M : BuiltModel) (v : Valuation) : ℚ :=
  (M.filteredSources.map
    (fun s => (years.map
      (fun y => v.investment s y / alookupD M.capCost s * alookupD M.emisFactor s)).sum)).sum

/-- `emissions_produced` of the result analysis (lines 227-231): note the
extra factor 8760 relative to the `Emissions` constraint left-hand side. -/
def emissions_produced (M : BuiltModel) (v : Valuation) : ℚ :=
  (M.filteredSources.map
    (fun s => (years.map
      (fun y => v.investment s y / alookupD M.capCost s * alookupD M.emisFactor s * 8760)).sum)).sum

/-- All variables respect their lower bound `lb=0.0` (lines 68-76). -/
def nonneg (M : BuiltModel) (v : Valuation) : Prop :=
  (∀ s ∈ M.filteredSources, ∀ y ∈ years, 0 ≤ v.investment s y) ∧
  (∀ s ∈ M.filteredSources, 0 ≤ v.slack_target s) ∧
  (∀ y ∈ years, 0 ≤ v.slack_min_budget y ∧ 0 ≤ v.slack_max_budget y) ∧
  0 ≤ v.slack_renewable_capacity ∧
  0 ≤ v.slack_renewable_production ∧
  0 ≤ v.slack_emissions

/-- The valuation satisfies every constraint of the built model:
variable bounds, per-source target constraints (line 95), annual
min/max budget constraints (lines 109-110), the renewable capacity and
production constraints (lines 124-138), and the emissions constraint
(lines 169-175). -/
def feasible (M : BuiltModel) (v : Valuation) : Prop :=
  nonneg M v ∧
  (∀ s ∈ M.filteredSources,
    alookupD M.targetCost s ≤ sourceInvestment v s + v.slack_target s) ∧
  (∀ y ∈ years, M.minAnnualBudget ≤ yearInvestment M v y + v.slack_min_budget y) ∧
  (∀ y ∈ years, yearInvestment M v y ≤ M.maxAnnualBudget + v.slack_max_budget y) ∧
  M.renewCapTarget ≤ renewCapLHS M v + v.slack_renewable_capacity ∧
  M.renewProdTarget * 1000000 ≤ renewProdLHS M v + v.slack_renewable_production ∧
  emissionsLHS M v ≤ M.emissionTarget + v.slack_emissions

/-- The parenthesized slack total of the objective (lines 82-86), with
the code's grouping. -/
def slackTotal (M : BuiltModel) (v : Valuation) : ℚ :=
  (M.filteredSources.map (fun s => v.slack_target s)).sum +
  (years.map (fun y => v.slack_min_budget y + v.slack_max_budget y)).sum +
  v.slack_renewable_capacity + v.slack_renewable_production + v.slack_emissions

/-- The minimized objective (lines 80-88): total investment plus
`penalty_factor` times the slack total. -/
def objective (M : BuiltModel) (v : Valuation) : ℚ :=
  totalInvestmentMade M v + penalty_factor * slackTotal M v

/-- The structured content of the Optimal-branch report (lines 184-246):
which lines and warnings are printed, with the numbers they carry
(before display formatting). -/
structure Report where
  totalInvestment : ℚ
  sourceLines : List (String × ℚ)
  sourceYearLines : List (String × ℕ × ℚ)
  targetShortfallWarnings : List (String × ℚ)
  minBudgetWarnings : List (ℕ × ℚ)
  maxBudgetWarnings : List (ℕ × ℚ)
  renewCapWarning : Option ℚ
  renewProdWarning : Option ℚ
  emissionsExceedWarning : Option ℚ
deriving DecidableEq, Repr

/-- The result analysis on Optimal status (lines 184-246) as a pure
function of the built model and the solved values:
* a per-source total line is printed when `source_investment > 0`
  (line 196), and per-year lines under it when the year's investment
  exceeds `0.5` (line 199);
* a target-shortfall warning when `slack_target[s] > 0.5` (line 202);
* min/max budget warnings when the year's slack exceeds `0.5`
  (lines 209-212);
* renewable capacity/production shortfall warnings when the slack
  exceeds `0.5` (lines 217-223, the production one printed `/1e6`);
* an emissions-exceed warning when `emissions_produced` exceeds
  `total_emission_target` (lines 243-244), carrying their difference. -/
def analyze (M : BuiltModel) (v : Valuation) : Report :=
  { totalInvestment := totalInvestmentMade M v
    sourceLines := M.filteredSources.filterMap
      (fun s => if 0 < sourceInvestment v s then some (s, sourceInvestment v s) else none)
    sourceYearLines := M.filteredSources.flatMap
      (fun s =>
        if 0 < sourceInvestment v s then
          years.filterMap
            (fun y => if 0.5 < v.investment s y then some (s, y, v.investment s y) else none)
        else [])
    targetShortfallWarnings := M.filteredSources.filterMap
      (fun s => if 0.5 < v.slack_target s then some (s, v.slack_target s) else none)
    minBudgetWarnings := years.filterMap
      (fun y => if 0.5 < v.slack_min_budget y then some (y, v.slack_min_budget y) else none)
    maxBudgetWarnings := years.filterMap
      (fun y => if 0.5 < v.slack_max_budget y then some (y, v.slack_max_budget y) else none)
    renewCapWarning :=
      if 0.5 < v.slack_renewable_capacity then some v.slack_renewable_capacity else none
    renewProdWarning :=
      if 0.5 < v.slack_renewable_production
      then some (v.slack_renewable_production / 1000000) else none
    emissionsExceedWarning :=
      if M.emissionTarget < emissions_produced M v
      then some (emissions_produced M v - M.emissionTarget) else none }

/-- The cost of closing a source's capacity gap,
`(target_capacity[s] - current_capacity[s]) * capital_cost[s]` (line 93),
as a total function (used only where the three lookups are known to
succeed). -/
def targetCostD (inp : Input) (s : String) : ℚ :=
  ((target_capacity inp s).getD 0 - (current_capacity inp s).getD 0) *
    (capital_cost inp s).getD 0

/-- The spec's `targetProduction`: Σ over the renewable subset of
`(targetCapacity[s] - currentCapacity[s]) * capacityFactor[s] * 8760 / 10^6`. -/
def targetProduction_spec (inp : Input) : ℚ :=
  (renewable_sources.map
    (fun s => ((target_capacity inp s).getD 0 - (current_capacity inp s).getD 0) *
      (capacity_factors s).getD 0 * 8760 / 1000000)).sum

/-- The per-source baseline sum of the spec's emissions-target formula:
Σ over filtered sources of
`emissionFactor[s] * (targetCapacity[s] - currentCapacity[s]) * capacityFactor[s] * 8760 / 10^3`. -/
def emissionBaseline_spec (inp : Input) : ℚ :=
  ((filtered_sources inp).map
    (fun s => (emission_factors inp s).getD 0 *
      ((target_capacity inp s).getD 0 - (current_capacity inp s).getD 0) *
      (capacity_factors s).getD 0 * 8760 / 1000)).sum

/-- The spec's emissions target:
`0.43 * targetProduction * 10^6` plus the per-source baseline. -/
def emissionTarget_spec (inp : Input) : ℚ :=
  0.43 * targetProduction_spec inp * 10 ^ 6 + emissionBaseline_spec inp

/-- The objective as the spec words it: the sum over all (source, year)
pairs of the investment variables, plus 1.1 times the sum of all slack
variables of the six families. -/
def objective_spec (M : BuiltModel) (v : Valuation) : ℚ :=
  (M.filteredSources.flatMap (fun s => years.map (fun y => v.investment s y))).sum +
  1.1 * ((M.filteredSources.map (fun s => v.slack_target s)).sum +
    (years.map (fun y => v.slack_min_budget y)).sum +
    (years.map (fun y => v.slack_max_budget y)).sum +
    v.slack_renewable_capacity + v.slack_renewable_production + v.slack_emissions)

/-! ### Concrete test inputs and valuations -/

/-- A well-formed input: the four renewable sources with capital cost 1,
zero emission factors, and goal targets equal to current capacities
(Solar 100 MW, Wind 200 MW, Hydropower 300 MW, Biomass 400 MW). -/
def I1 : Input :=
  ⟨[⟨"Solar", 1, 100, 0⟩, ⟨"Wind", 1, 200, 0⟩, ⟨"Hydropower", 1, 300, 0⟩, ⟨"Biomass", 1, 400, 0⟩],
   [⟨"Solar Capacity (GW)", 1/10⟩, ⟨"Wind Capacity (GW)", 2/10⟩,
    ⟨"Hydropower Capacity (GW)", 3/10⟩, ⟨"Biomass Capacity (GW)", 4/10⟩]⟩

/-- `I1` with Solar's capital cost set to 0. -/
def I0 : Input :=
  ⟨[⟨"Solar", 0, 100, 0⟩, ⟨"Wind", 1, 200, 0⟩, ⟨"Hydropower", 1, 300, 0⟩, ⟨"Biomass", 1, 400, 0⟩],
   [⟨"Solar Capacity (GW)", 1/10⟩, ⟨"Wind Capacity (GW)", 2/10⟩,
    ⟨"Hydropower Capacity (GW)", 3/10⟩, ⟨"Biomass Capacity (GW)", 4/10⟩]⟩

/-- A well-formed input with a positive Solar capacity gap (target 200,
current 100) and a Coal source (emission factor 1, zero gap). -/
def I2 : Input :=
  ⟨[⟨"Solar", 1, 100, 0⟩, ⟨"Wind", 1, 200, 0⟩, ⟨"Hydropower", 1, 300, 0⟩, ⟨"Biomass", 1, 400, 0⟩,
    ⟨"Coal", 1, 500, 1⟩],
   [⟨"Solar Capacity (GW)", 2/10⟩, ⟨"Wind Capacity (GW)", 2/10⟩,
    ⟨"Hydropower Capacity (GW)", 3/10⟩, ⟨"Biomass Capacity (GW)", 4/10⟩,
    ⟨"Coal Capacity (GW)", 5/10⟩]⟩

/-- An input whose goals table contains an unrecognized label
(`"Fusion Capacity (GW)"`) between two recognized ones. -/
def I3 : Input :=
  ⟨[⟨"Solar", 1, 100, 0⟩, ⟨"Coal", 1, 500, 1⟩],
   [⟨"Solar Capacity (GW)", 1/10⟩, ⟨"Fusion Capacity (GW)", 7⟩, ⟨"Coal Capacity (GW)", 5/10⟩]⟩

/-- `I1` without the Biomass goal row: Biomass is in the cost table but
absent from the target-capacity map. -/
def I4 : Input :=
  ⟨[⟨"Solar", 1, 100, 0⟩, ⟨"Wind", 1, 200, 0⟩, ⟨"Hydropower", 1, 300, 0⟩, ⟨"Biomass", 1, 400, 0⟩],
   [⟨"Solar Capacity (GW)", 1/10⟩, ⟨"Wind Capacity (GW)", 2/10⟩,
    ⟨"Hydropower Capacity (GW)", 3/10⟩]⟩

/-- The model built from `I1` (checked against `buildModel` below). -/
def M1 : BuiltModel :=
  { filteredSources := ["Solar", "Wind", "Hydropower", "Biomass"]
    targetCost := [("Solar", 0), ("Wind", 0), ("Hydropower", 0), ("Biomass", 0)]
    minAnnualBudget := 35200000000000/7
    maxAnnualBudget := 52800000000000/7
    renewCapTarget := 1000
    renewProdTarget := 0
    emissionTarget := 0
    capCost := [("Solar", 1), ("Wind", 1), ("Hydropower", 1), ("Biomass", 1)]
    emisFactor := [("Solar", 0), ("Wind", 0), ("Hydropower", 0), ("Biomass", 0)]
    capFactor := [("Solar", 1/5), ("Wind", 3/10), ("Hydropower", 2/5), ("Biomass", 7/10)] }

/-- The model built from `I2` (checked against `buildModel` below). -/
def M2 : BuiltModel :=
  { filteredSources := ["Solar", "Wind", "Hydropower", "Biomass", "Coal"]
    targetCost := [("Solar", 100), ("Wind", 0), ("Hydropower", 0), ("Biomass", 0), ("Coal", 0)]
    minAnnualBudget := 35200000000000/7
    maxAnnualBudget := 52800000000000/7
    renewCapTarget := 1100
    renewProdTarget := 219/1250
    emissionTarget := 75336
    capCost := [("Solar", 1), ("Wind", 1), ("Hydropower", 1), ("Biomass", 1), ("Coal", 1)]
    emisFactor := [("Solar", 0), ("Wind", 0), ("Hydropower", 0), ("Biomass", 0), ("Coal", 1)]
    capFactor := [("Solar", 1/5), ("Wind", 3/10), ("Hydropower", 2/5), ("Biomass", 7/10),
      ("Coal", 4/5)] }

/-- The all-zero valuation. -/
def valZero : Valuation :=
  ⟨fun _ _ => 0, fun _ => 0, fun _ => 0, fun _ => 0, 0, 0, 0⟩

/-- Invest the minimum annual budget in Solar every year, use no slack. -/
def valPlan : Valuation :=
  { valZero with investment := fun s _ => if s = "Solar" then min_annual_budget else 0 }

/-- `valPlan` plus one unit of Solar target slack. -/
def valSlack : Valuation :=
  { valPlan with slack_target := fun s => if s = "Solar" then 1 else 0 }

/-- All zero except one unit of emissions slack. -/
def valEm : Valuation :=
  { valZero with slack_emissions := 1 }

/-- Invest 75336 in Coal in 2024, nothing else. -/
def valCoal : Valuation :=
  { valZero with investment := fun s y => if s = "Coal" ∧ y = 2024 then 75336 else 0 }

/-- Invest 0.3 in Solar in 2024, nothing else. -/
def valSmall : Valuation :=
  { valZero with investment := fun s y => if s = "Solar" ∧ y = 2024 then 3/10 else 0 }

/-- Invest 0.7 in Solar in 2024, nothing else. -/
def valBig : Valuation :=
  { valZero with investment := fun s y => if s = "Solar" ∧ y = 2024 then 7/10 else 0 }

/-- No investment; one unit of slack in the Solar target, the 2024
min/max budgets, and the renewable capacity and production constraints. -/
def valWarn : Valuation :=
  { valZero with
    slack_target := fun s => if s = "Solar" then 1 else 0
    slack_min_budget := fun y => if y = 2024 then 1 else 0
    slack_max_budget := fun y => if y = 2024 then 1 else 0
    slack_renewable_capacity := 1
    slack_renewable_production := 1 }

/-! ### Lookup and membership lemmas -/

theorem firstRow?_isSome (s : String) :
    ∀ rows : List SourceRow, (firstRow? rows s).isSome ↔ ∃ r ∈ rows, r.name = s := by
  intro rows
  induction rows with
  | nil => simp [firstRow?]
  | cons r rest ih =>
    rw [firstRow?]
    by_cases h : r.name = s
    · simp [h]
    · simp only [h, if_false, ih]
      constructor
      · rintro ⟨r2, h2, h3⟩
        exact ⟨r2, by simp [h2], h3⟩
      · rintro ⟨r2, h2, h3⟩
        rcases List.mem_cons.mp h2 with rfl | h2
        · exact absurd h3 h
        · exact ⟨r2, h2, h3⟩

theorem lastRow?_isSome (rows : List SourceRow) (s : String) :
    (lastRow? rows s).isSome ↔ ∃ r ∈ rows, r.name = s := by
  rw [lastRow?, firstRow?_isSome]
  constructor
  · rintro ⟨r, h1, h2⟩; exact ⟨r, List.mem_reverse.mp h1, h2⟩
  · rintro ⟨r, h1, h2⟩; exact ⟨r, List.mem_reverse.mpr h1, h2⟩

theorem firstVal_isSome (s : String) :
    ∀ l : List (String × ℚ), (firstVal l s).isSome ↔ ∃ p ∈ l, p.1 = s := by
  intro l
  induction l with
  | nil => simp [firstVal]
  | cons p rest ih =>
    rw [firstVal]
    by_cases h : p.1 = s
    · simp [h]
    · simp only [h, if_false, ih]
      constructor
      · rintro ⟨p2, h2, h3⟩
        exact ⟨p2, by simp [h2], h3⟩
      · rintro ⟨p2, h2, h3⟩
        rcases List.mem_cons.mp h2 with rfl | h2
        · exact absurd h3 h
        · exact ⟨p2, h2, h3⟩

theorem lastVal_isSome (l : List (String × ℚ)) (s : String) :
    (lastVal l s).isSome ↔ ∃ p ∈ l, p.1 = s := by
  rw [lastVal, firstVal_isSome]
  constructor
  · rintro ⟨p, h1, h2⟩; exact ⟨p, List.mem_reverse.mp h1, h2⟩
  · rintro ⟨p, h1, h2⟩; exact ⟨p, List.mem_reverse.mpr h1, h2⟩

theorem mem_sources_iff (inp : Input) (s : String) :
    s ∈ sources inp ↔ (lastRow? inp.emissionsData s).isSome := by
  rw [lastRow?_isSome, sources, List.mem_map]

theorem mem_filtered_iff (inp : Input) (s : String) :
    s ∈ filtered_sources inp ↔ s ∈ sources inp ∧ (target_capacity inp s).isSome := by
  rw [filtered_sources, List.mem_filter]

/-- Every filtered source has all four per-source dict entries. -/
theorem filtered_lookups (inp : Input) (s : String) (h : s ∈ filtered_sources inp) :
    (target_capacity inp s).isSome ∧ (current_capacity inp s).isSome ∧
    (capital_cost inp s).isSome ∧ (emission_factors inp s).isSome := by
  rcases (mem_filtered_iff inp s).mp h with ⟨hs, htc⟩
  have hrow : (lastRow? inp.emissionsData s).isSome := (mem_sources_iff inp s).mp hs
  rcases Option.isSome_iff_exists.mp hrow with ⟨r, hr⟩
  exact ⟨htc, by simp [current_capacity, hr], by simp [capital_cost, hr],
    by simp [emission_factors, hr]⟩

/-- A source with a current-capacity entry is in the sources list. -/
theorem mem_sources_of_current (inp : Input) (s : String)
    (h : (current_capacity inp s).isSome) : s ∈ sources inp := by
  rw [mem_sources_iff]
  rcases Option.isSome_iff_exists.mp h with ⟨q, hq⟩
  rw [current_capacity] at hq
  cases hrow : lastRow? inp.emissionsData s with
  | none => rw [hrow] at hq; simp at hq
  | some r => simp

/-! ### List-sum helpers -/

theorem sum_map_le_sum_map {α : Type} (l : List α) (f g : α → ℚ)
    (h : ∀ a ∈ l, f a ≤ g a) : (l.map f).sum ≤ (l.map g).sum :=
  List.sum_le_sum h

theorem sum_map_nonneg {α : Type} (l : List α) (f : α → ℚ)
    (h : ∀ a ∈ l, 0 ≤ f a) : 0 ≤ (l.map f).sum := by
  apply List.sum_nonneg
  intro x hx
  rcases List.mem_map.mp hx with ⟨a, ha, rfl⟩
  exact h a ha

theorem sum_map_eq_zero {α : Type} (l : List α) (f : α → ℚ)
    (h : ∀ a ∈ l, 0 ≤ f a) (h2 : (l.map f).sum = 0) : ∀ a ∈ l, f a = 0 := by
  induction l with
  | nil => simp
  | cons a t ih =>
    have ha : 0 ≤ f a := h a (by simp)
    have ht : 0 ≤ (t.map f).sum := sum_map_nonneg t f (fun z hz => h z (by simp [hz]))
    simp only [List.map_cons, List.sum_cons] at h2
    have ha0 : f a = 0 := by linarith
    intro x hx
    rcases List.mem_cons.mp hx with rfl | hx
    · exact ha0
    · exact ih (fun z hz => h z (by simp [hz])) (by linarith) x hx

theorem sum_flatMap_eq {α : Type} (l : List α) (f : α → List ℚ) :
    (l.flatMap f).sum = (l.map (fun a => (f a).sum)).sum := by
  induction l with
  | nil => simp
  | cons a t ih => simp [ih]

theorem sum_map_mul_const {α : Type} (l : List α) (f : α → ℚ) (c : ℚ) :
    (l.map (fun a => f a * c)).sum = (l.map f).sum * c := by
  induction l with
  | nil => simp
  | cons a t ih => simp [ih]; ring

/-! ### Characterization of the build phases -/

theorem targetFold_eq (inp : Input) :
    ∀ l : List String,
      (∀ s ∈ l, (target_capacity inp s).isSome ∧ (current_capacity inp s).isSome ∧
        (capital_cost inp s).isSome) →
      targetFold inp l =
        (l.map (fun s => "Target_" ++ s), .ok (l.map (fun s => (s, targetCostD inp s)))) := by
  intro l
  induction l with
  | nil => intro _; simp [targetFold]
  | cons s rest ih =>
    intro h
    obtain ⟨h1, h2, h3⟩ := h s (by simp)
    rcases Option.isSome_iff_exists.mp h1 with ⟨t, ht⟩
    rcases Option.isSome_iff_exists.mp h2 with ⟨c, hc⟩
    rcases Option.isSome_iff_exists.mp h3 with ⟨k, hk⟩
    have hrest := ih (fun z hz => h z (by simp [hz]))
    simp only [targetFold, ht, hc, hk, hrest]
    simp [targetCostD, ht, hc, hk, Except.map]

theorem targetFold_ok_inv (inp : Input) :
    ∀ (l ns : List String) (tl : List (String × ℚ)), targetFold inp l = (ns, .ok tl) →
      ∀ s ∈ l, (target_capacity inp s).isSome ∧ (current_capacity inp s).isSome ∧
        (capital_cost inp s).isSome := by
  intro l
  induction l with
  | nil => simp
  | cons s rest ih =>
    intro ns tl h
    cases ht : target_capacity inp s with
    | none => simp only [targetFold, ht] at h; simp at h
    | some t =>
      cases hc : current_capacity inp s with
      | none => simp only [targetFold, ht, hc] at h; simp at h
      | some c =>
        cases hk : capital_cost inp s with
        | none => simp only [targetFold, ht, hc, hk] at h; simp at h
        | some k =>
          simp only [targetFold, ht, hc, hk] at h
          rcases hrec : targetFold inp rest with ⟨ns2, r⟩
          rw [hrec] at h
          cases r with
          | error e => simp [Except.map] at h
          | ok tl2 =>
            intro z hz
            rcases List.mem_cons.mp hz with rfl | hz
            · exact ⟨by simp [ht], by simp [hc], by simp [hk]⟩
            · exact ih ns2 tl2 hrec z hz

theorem sumTargetCapacity_eq (inp : Input) :
    ∀ l : List String, (∀ s ∈ l, (target_capacity inp s).isSome) →
      sumTargetCapacity inp l = .ok ((l.map (fun s => (target_capacity inp s).getD 0)).sum) := by
  intro l
  induction l with
  | nil => intro _; simp [sumTargetCapacity]
  | cons s rest ih =>
    intro h
    rcases Option.isSome_iff_exists.mp (h s (by simp)) with ⟨t, ht⟩
    have hrest := ih (fun z hz => h z (by simp [hz]))
    simp only [sumTargetCapacity, ht, hrest]
    simp [Except.map, ht]

theorem sumTargetCapacity_err (inp : Input) :
    ∀ l : List String, (∃ s ∈ l, target_capacity inp s = none) →
      ∃ k, sumTargetCapacity inp l =
        .error ⟨.renewableTargets, .keyError "target_capacity" k⟩ := by
  intro l
  induction l with
  | nil => rintro ⟨s, hs, _⟩; simp at hs
  | cons s rest ih =>
    rintro ⟨z, hz, hznone⟩
    cases ht : target_capacity inp s with
    | none => exact ⟨s, by simp [sumTargetCapacity, ht]⟩
    | some t =>
      rcases List.mem_cons.mp hz with rfl | hz
      · rw [ht] at hznone; simp at hznone
      · rcases ih ⟨z, hz, hznone⟩ with ⟨k, hk⟩
        refine ⟨k, ?_⟩
        simp only [sumTargetCapacity, ht, hk]
        simp [Except.map]

theorem sumProdTarget_eq (inp : Input) :
    ∀ l : List String,
      (∀ s ∈ l, (target_capacity inp s).isSome ∧ (current_capacity inp s).isSome ∧
        (capacity_factors s).isSome) →
      sumProdTarget inp l = .ok ((l.map
        (fun s => ((target_capacity inp s).getD 0 - (current_capacity inp s).getD 0) *
          (capacity_factors s).getD 0 * 8760 / 1000000)).sum) := by
  intro l
  induction l with
  | nil => intro _; simp [sumProdTarget]
  | cons s rest ih =>
    intro h
    obtain ⟨h1, h2, h3⟩ := h s (by simp)
    rcases Option.isSome_iff_exists.mp h1 with ⟨t, ht⟩
    rcases Option.isSome_iff_exists.mp h2 with ⟨c, hc⟩
    rcases Option.isSome_iff_exists.mp h3 with ⟨f, hf⟩
    have hrest := ih (fun z hz => h z (by simp [hz]))
    simp only [sumProdTarget, ht, hc, hf, hrest]
    simp [Except.map, ht, hc, hf]

theorem sumProdTarget_ok_inv (inp : Input) :
    ∀ (l : List String) (q : ℚ), sumProdTarget inp l = .ok q →
      ∀ s ∈ l, (target_capacity inp s).isSome ∧ (current_capacity inp s).isSome ∧
        (capacity_factors s).isSome := by
  intro l
  induction l with
  | nil => simp
  | cons s rest ih =>
    intro q h
    cases ht : target_capacity inp s with
    | none => simp only [sumProdTarget, ht] at h; simp at h
    | some t =>
      cases hc : current_capacity inp s with
      | none => simp only [sumProdTarget, ht, hc] at h; simp at h
      | some c =>
        cases hf : capacity_factors s with
        | none => simp only [sumProdTarget, ht, hc, hf] at h; simp at h
        | some f =>
          simp only [sumProdTarget, ht, hc, hf] at h
          cases hrec : sumProdTarget inp rest with
          | error e => rw [hrec] at h; simp [Except.map] at h
          | ok q2 =>
            intro z hz
            rcases List.mem_cons.mp hz with rfl | hz
            · exact ⟨by simp [ht], by simp [hc], by simp [hf]⟩
            · exact ih q2 hrec z hz

theorem sumProdTarget_err (inp : Input) :
    ∀ l : List String, (∀ s ∈ l, (target_capacity inp s).isSome) →
      (∀ s ∈ l, (capacity_factors s).isSome) →
      (∃ s ∈ l, current_capacity inp s = none) →
      ∃ d k, sumProdTarget inp l = .error ⟨.renewableTargets, .keyError d k⟩ := by
  intro l
  induction l with
  | nil => rintro _ _ ⟨s, hs, _⟩; simp at hs
  | cons s rest ih =>
    rintro h1 h2 ⟨z, hz, hznone⟩
    rcases Option.isSome_iff_exists.mp (h1 s (by simp)) with ⟨t, ht⟩
    cases hc : current_capacity inp s with
    | none =>
      exact ⟨"current_capacity", s, by simp [sumProdTarget, ht, hc]⟩
    | some c =>
      rcases List.mem_cons.mp hz with rfl | hz
      · rw [hc] at hznone; simp at hznone
      · rcases Option.isSome_iff_exists.mp (h2 s (by simp)) with ⟨f, hf⟩
        rcases ih (fun a ha => h1 a (by simp [ha])) (fun a ha => h2 a (by simp [ha]))
          ⟨z, hz, hznone⟩ with ⟨d, k, hk⟩
        refine ⟨d, k, ?_⟩
        simp only [sumProdTarget, ht, hc, hf, hk]
        simp [Except.map]

theorem sumEmissionBaseline_eq (inp : Input) :
    ∀ l : List String,
      (∀ s ∈ l, (emission_factors inp s).isSome ∧ (target_capacity inp s).isSome ∧
        (current_capacity inp s).isSome ∧ (capacity_factors s).isSome) →
      sumEmissionBaseline inp l = .ok ((l.map
        (fun s => (emission_factors inp s).getD 0 *
          ((target_capacity inp s).getD 0 - (current_capacity inp s).getD 0) *
          (capacity_factors s).getD 0 * 8760 / 1000)).sum) := by
  intro l
  induction l with
  | nil => intro _; simp [sumEmissionBaseline]
  | cons s rest ih =>
    intro h
    obtain ⟨h1, h2, h3, h4⟩ := h s (by simp)
    rcases Option.isSome_iff_exists.mp h1 with ⟨e, he⟩
    rcases Option.isSome_iff_exists.mp h2 with ⟨t, ht⟩
    rcases Option.isSome_iff_exists.mp h3 with ⟨c, hc⟩
    rcases Option.isSome_iff_exists.mp h4 with ⟨f, hf⟩
    have hrest := ih (fun z hz => h z (by simp [hz]))
    simp only [sumEmissionBaseline, he, ht, hc, hf, hrest]
    simp [Except.map, he, ht, hc, hf]

theorem sumEmissionBaseline_ok_inv (inp : Input) :
    ∀ (l : List String) (q : ℚ), sumEmissionBaseline inp l = .ok q →
      ∀ s ∈ l, (emission_factors inp s).isSome ∧ (target_capacity inp s).isSome ∧
        (current_capacity inp s).isSome ∧ (capacity_factors s).isSome := by
  intro l
  induction l with
  | nil => simp
  | cons s rest ih =>
    intro q h
    cases he : emission_factors inp s with
    | none => simp only [sumEmissionBaseline, he] at h; simp at h
    | some e =>
      cases ht : target_capacity inp s with
      | none => simp only [sumEmissionBaseline, he, ht] at h; simp at h
      | some t =>
        cases hc : current_capacity inp s with
        | none => simp only [sumEmissionBaseline, he, ht, hc] at h; simp at h
        | some c =>
          cases hf : capacity_factors s with
          | none => simp only [sumEmissionBaseline, he, ht, hc, hf] at h; simp at h
          | some f =>
            simp only [sumEmissionBaseline, he, ht, hc, hf] at h
            cases hrec : sumEmissionBaseline inp rest with
            | error e2 => rw [hrec] at h; simp [Except.map] at h
            | ok q2 =>
              intro z hz
              rcases List.mem_cons.mp hz with rfl | hz
              · exact ⟨by simp [he], by simp [ht], by simp [hc], by simp [hf]⟩
              · exact ih q2 hrec z hz

theorem checkRenewCapC_err (inp : Input) :
    ∀ l : List String,
      (∀ s ∈ l, s ∈ filtered_sources inp ∧ (capital_cost inp s).isSome) →
      (∃ s ∈ l, capital_cost inp s = some 0) →
      ∃ site, checkRenewCapC inp l =
        .error ⟨.renewableCapacityConstraint, .zeroDivisionError site⟩ := by
  intro l
  induction l with
  | nil => rintro _ ⟨s, hs, _⟩; simp at hs
  | cons s rest ih =>
    rintro h ⟨z, hz, hz0⟩
    obtain ⟨hmem, hcc⟩ := h s (by simp)
    rcases Option.isSome_iff_exists.mp hcc with ⟨k, hk⟩
    by_cases hk0 : k = 0
    · exact ⟨s, by simp [checkRenewCapC, hmem, hk, hk0]⟩
    · rcases List.mem_cons.mp hz with rfl | hz
      · rw [hk] at hz0
        simp only [Option.some.injEq] at hz0
        exact absurd hz0 hk0
      · rcases ih (fun a ha => h a (by simp [ha])) ⟨z, hz, hz0⟩ with ⟨site, hsite⟩
        refine ⟨site, ?_⟩
        simp only [checkRenewCapC, hmem, if_true, hk, hk0, if_false]
        exact hsite

/-- Inversion of a successful build: the completed model's fields are
the canonical values computed from the input, and every per-source
lookup the build performed succeeded. -/
theorem buildModel_ok_inv (inp : Input) (M : BuiltModel) (h : (buildModel inp).2 = Except.ok M) :
    M.filteredSources = filtered_sources inp ∧
    M.minAnnualBudget = min_annual_budget ∧
    M.maxAnnualBudget = max_annual_budget ∧
    M.targetCost = (filtered_sources inp).map (fun s => (s, targetCostD inp s)) ∧
    M.renewProdTarget = targetProduction_spec inp ∧
    M.emissionTarget = 0.43 * targetProduction_spec inp * 1000000 + emissionBaseline_spec inp := by
  rcases htf : targetFold inp (filtered_sources inp) with ⟨tns, tres⟩
  rw [buildModel, htf] at h
  cases tres with
  | error e => simp at h
  | ok tl =>
    cases h1 : sumTargetCapacity inp renewable_sources with
    | error e1 => rw [h1] at h; simp at h
    | ok rct =>
      rw [h1] at h
      cases h2 : sumProdTarget inp renewable_sources with
      | error e2 => rw [h2] at h; simp at h
      | ok rpt =>
        rw [h2] at h
        cases h3 : checkRenewCapC inp renewable_sources with
        | error e3 => rw [h3] at h; simp at h
        | ok u3 =>
          rw [h3] at h
          cases h4 : checkRenewProdC inp renewable_sources with
          | error e4 => rw [h4] at h; simp at h
          | ok u4 =>
            rw [h4] at h
            cases h5 : sumEmissionBaseline inp (filtered_sources inp) with
            | error e5 => rw [h5] at h; simp at h
            | ok eb =>
              rw [h5] at h
              cases h6 : checkEmisC inp (filtered_sources inp) with
              | error e6 => rw [h6] at h; simp at h
              | ok u6 =>
                rw [h6] at h
                simp only [Except.ok.injEq] at h
                have htl : tl = (filtered_sources inp).map (fun s => (s, targetCostD inp s)) := by
                  have hlook := targetFold_ok_inv inp (filtered_sources inp) tns tl htf
                  have hcanon := targetFold_eq inp (filtered_sources inp) hlook
                  rw [htf] at hcanon
                  simp only [Prod.mk.injEq, Except.ok.injEq] at hcanon
                  exact hcanon.2
                have hrpt : rpt = targetProduction_spec inp := by
                  have hlook := sumProdTarget_ok_inv inp renewable_sources rpt h2
                  have hcanon := sumProdTarget_eq inp renewable_sources hlook
                  rw [h2] at hcanon
                  simp only [Except.ok.injEq] at hcanon
                  exact hcanon
                have heb : eb = emissionBaseline_spec inp := by
                  have hlook := sumEmissionBaseline_ok_inv inp (filtered_sources inp) eb h5
                  have hcanon := sumEmissionBaseline_eq inp (filtered_sources inp) hlook
                  rw [h5] at hcanon
                  simp only [Except.ok.injEq] at hcanon
                  exact hcanon
                subst h
                refine ⟨rfl, rfl, rfl, ?_, ?_, ?_⟩
                · simpa using htl
                · simpa using hrpt
                · simp [hrpt, heb]

/-- If a renewable source is absent from the target-capacity map or the
cost table, the build dies with a `KeyError` while computing the
renewable targets (lines 115-122). -/
theorem buildModel_renewTargets_err (inp : Input)
    (hexist : ∃ s ∈ renewable_sources,
      target_capacity inp s = none ∨ current_capacity inp s = none) :
    ∃ ns d k, buildModel inp = (ns, .error ⟨.renewableTargets, .keyError d k⟩) := by
  have hA := targetFold_eq inp (filtered_sources inp)
    (fun s hs => by
      obtain ⟨a, b, c, _⟩ := filtered_lookups inp s hs
      exact ⟨a, b, c⟩)
  by_cases htc : ∃ s ∈ renewable_sources, target_capacity inp s = none
  · obtain ⟨k, hk⟩ := sumTargetCapacity_err inp renewable_sources htc
    refine ⟨(filtered_sources inp).map (fun s => "Target_" ++ s) ++ budget_names,
      "target_capacity", k, ?_⟩
    simp [buildModel, hA, hk]
  · push_neg at htc
    have htc2 : ∀ s ∈ renewable_sources, (target_capacity inp s).isSome := by
      intro s hs
      exact Option.ne_none_iff_isSome.mp (htc s hs)
    have hcf : ∀ s ∈ renewable_sources, (capacity_factors s).isSome := by decide
    obtain ⟨z, hz, hor⟩ := hexist
    have hcurr : current_capacity inp z = none := by
      rcases hor with h | h
      · exact absurd h (htc z hz)
      · exact h
    have h1 := sumTargetCapacity_eq inp renewable_sources htc2
    obtain ⟨d, k, hk⟩ := sumProdTarget_err inp renewable_sources htc2 hcf ⟨z, hz, hcurr⟩
    refine ⟨(filtered_sources inp).map (fun s => "Target_" ++ s) ++ budget_names, d, k, ?_⟩
    simp [buildModel, hA, h1, hk]

/-- If every renewable source has target-capacity and cost entries but
some renewable's capital cost is zero, the build dies with a
`ZeroDivisionError` while constructing the `Renewable_Capacity`
constraint (line 125), after the target and budget constraints have
already been added. -/
theorem buildModel_capzero_err (inp : Input)
    (hpresent : ∀ s ∈ renewable_sources,
      (target_capacity inp s).isSome ∧ (current_capacity inp s).isSome)
    (hzero : ∃ s ∈ renewable_sources, capital_cost inp s = some 0) :
    ∃ site, (buildModel inp).2 =
        .error ⟨.renewableCapacityConstraint, .zeroDivisionError site⟩ ∧
      (buildModel inp).1 ≠ [] := by
  have hsub : ∀ s ∈ renewable_sources, s ∈ filtered_sources inp := fun s hs =>
    (mem_filtered_iff inp s).mpr
      ⟨mem_sources_of_current inp s (hpresent s hs).2, (hpresent s hs).1⟩
  have hccs : ∀ s ∈ renewable_sources, (capital_cost inp s).isSome := fun s hs =>
    (filtered_lookups inp s (hsub s hs)).2.2.1
  have hcf : ∀ s ∈ renewable_sources, (capacity_factors s).isSome := by decide
  have hA := targetFold_eq inp (filtered_sources inp)
    (fun s hs => by
      obtain ⟨a, b, c, _⟩ := filtered_lookups inp s hs
      exact ⟨a, b, c⟩)
  have h1 := sumTargetCapacity_eq inp renewable_sources (fun s hs => (hpresent s hs).1)
  have h2 := sumProdTarget_eq inp renewable_sources
    (fun s hs => ⟨(hpresent s hs).1, (hpresent s hs).2, hcf s hs⟩)
  obtain ⟨site, hsite⟩ := checkRenewCapC_err inp renewable_sources
    (fun s hs => ⟨hsub s hs, hccs s hs⟩) hzero
  have hb : budget_names ≠ [] := by decide
  refine ⟨site, ?_, ?_⟩
  · simp [buildModel, hA, h1, h2, hsite]
  · simp only [buildModel, hA, h1, h2, hsite]
    intro hcontra
    exact hb (List.append_eq_nil.mp hcontra).2

/-! ### Concrete build results -/

theorem buildI1 : (buildModel I1).2 = Except.ok M1 := by
  simp [buildModel, targetFold, sumTargetCapacity, sumProdTarget, checkRenewCapC,
    checkRenewProdC, sumEmissionBaseline, checkEmisC, filtered_sources, sources,
    target_capacity, goalPairs, lastVal, firstVal, lastRow?, firstRow?, capital_cost,
    current_capacity, emission_factors, capacity_factors, goal_mappings, budget_names, years,
    min_annual_budget, max_annual_budget, average_annual_investment,
    total_investment_budget, I1, M1, List.filter, List.filterMap, Except.map]
  norm_num

theorem buildI2 : (buildModel I2).2 = Except.ok M2 := by
  simp [buildModel, targetFold, sumTargetCapacity, sumProdTarget, checkRenewCapC,
    checkRenewProdC, sumEmissionBaseline, checkEmisC, filtered_sources, sources,
    target_capacity, goalPairs, lastVal, firstVal, lastRow?, firstRow?, capital_cost,
    current_capacity, emission_factors, capacity_factors, goal_mappings, budget_names, years,
    min_annual_budget, max_annual_budget, average_annual_investment,
    total_investment_budget, I2, M2, List.filter, List.filterMap, Except.map]
  norm_num

theorem valPlan_feasible : feasible M1 valPlan := by
  refine ⟨⟨?_, ?_, ?_, ?_, ?_, ?_⟩, ?_, ?_, ?_, ?_, ?_, ?_⟩ <;>
    simp [feasible, nonneg, M1, valPlan, valZero, sourceInvestment, yearInvestment,
      totalInvestmentMade, renewCapLHS, renewProdLHS, emissionsLHS, alookupD, lastVal,
      firstVal, years, renewable_sources, min_annual_budget, average_annual_investment,
      total_investment_budget] <;> norm_num

theorem valPlan_objective : objective M1 valPlan = 35200000000000 := by
  simp [objective, totalInvestmentMade, slackTotal, sourceInvestment, M1, valPlan, valZero,
    years, penalty_factor, min_annual_budget, average_annual_investment,
    total_investment_budget]
  norm_num

theorem valSlack_feasible : feasible M1 valSlack := by
  refine ⟨⟨?_, ?_, ?_, ?_, ?_, ?_⟩, ?_, ?_, ?_, ?_, ?_, ?_⟩ <;>
    simp [feasible, nonneg, M1, valSlack, valPlan, valZero, sourceInvestment, yearInvestment,
      totalInvestmentMade, renewCapLHS, renewProdLHS, emissionsLHS, alookupD, lastVal,
      firstVal, years, renewable_sources, min_annual_budget, average_annual_investment,
      total_investment_budget] <;> norm_num

/-! ### Claims -/

/-- C1, counterexample: the build succeeds on `I1`, yet the min/max
annual budget bounds of the built model do not equal `0.8/1.2 × (44×10¹¹ / 7)`
as the claim states: the code's `44*10e11` is 44×10¹², not 44×10¹¹. -/
theorem C1_counterexample :
    (buildModel I1).2 = Except.ok M1 ∧
    M1.minAnnualBudget ≠ 0.8 * ((44 * 10 ^ 11 : ℚ) / 7) ∧
    M1.maxAnnualBudget ≠ 1.2 * ((44 * 10 ^ 11 : ℚ) / 7) :=
  ⟨buildI1, by norm_num [M1], by norm_num [M1]⟩

/-- C1, amended: for every successfully built model, the min-budget
constraint right-hand side equals `0.8 × (44×10¹² / 7)` and the
max-budget bound equals `1.2 × (44×10¹² / 7)` (total investment budget
44×10¹² currency units, from the Python literal `44*10e11`). -/
theorem C1_amended (inp : Input) (M : BuiltModel) (h : (buildModel inp).2 = Except.ok M) :
    M.minAnnualBudget = 0.8 * ((44 * 10 ^ 12 : ℚ) / 7) ∧
    M.maxAnnualBudget = 1.2 * ((44 * 10 ^ 12 : ℚ) / 7) := by
  obtain ⟨_, hmin, hmax, _, _, _⟩ := buildModel_ok_inv inp M h
  constructor
  · rw [hmin]
    norm_num [min_annual_budget, average_annual_investment, total_investment_budget, years]
  · rw [hmax]
    norm_num [max_annual_budget, average_annual_investment, total_investment_budget, years]

/-- C1, witness: the amended statement instantiated at the concrete
input `I1`. -/
theorem C1_witness :
    M1.minAnnualBudget = 0.8 * ((44 * 10 ^ 12 : ℚ) / 7) ∧
    M1.maxAnnualBudget = 1.2 * ((44 * 10 ^ 12 : ℚ) / 7) :=
  C1_amended I1 M1 buildI1

/-- C2, counterexample: on `I0` (Solar capital cost 0, a source appearing
in the target, renewable, production and emissions constraints), model
construction does NOT fail with a detected configuration error before any
constraint is constructed: the target and budget constraints are added
first (the trace is nonempty), and the failure is an uncaught
`ZeroDivisionError` raised while constructing the `Renewable_Capacity`
constraint. -/
theorem C2_counterexample :
    (buildModel I0).1 ≠ [] ∧
    (buildModel I0).2 =
      Except.error ⟨.renewableCapacityConstraint, .zeroDivisionError "Solar"⟩ := by
  constructor <;>
    simp [buildModel, targetFold, sumTargetCapacity, sumProdTarget, checkRenewCapC,
      checkRenewProdC, sumEmissionBaseline, checkEmisC, filtered_sources, sources,
      target_capacity, goalPairs, lastVal, firstVal, lastRow?, firstRow?, capital_cost,
      current_capacity, emission_factors, capacity_factors, goal_mappings, budget_names, years,
      I0, List.filter, List.filterMap, Except.map]

/-- C2, amended: a zero capital cost on a renewable source present in
both input tables is not detected or reported before constraint
construction: the build raises an uncaught `ZeroDivisionError` while
constructing the `Renewable_Capacity` constraint, after the target and
budget constraints have already been added (nonempty trace); no
`MissingParameter`-style pre-check exists. -/
theorem C2_amended (inp : Input)
    (hpresent : ∀ s ∈ renewable_sources,
      (target_capacity inp s).isSome ∧ (current_capacity inp s).isSome)
    (hzero : ∃ s ∈ renewable_sources, capital_cost inp s = some 0) :
    ∃ site, (buildModel inp).2 =
        .error ⟨.renewableCapacityConstraint, .zeroDivisionError site⟩ ∧
      (buildModel inp).1 ≠ [] :=
  buildModel_capzero_err inp hpresent hzero

/-- C2, witness: the amended statement instantiated at `I0`. -/
theorem C2_witness :
    ∃ site, (buildModel I0).2 =
        .error ⟨.renewableCapacityConstraint, .zeroDivisionError site⟩ ∧
      (buildModel I0).1 ≠ [] :=
  C2_amended I0
    (by
      intro s hs
      fin_cases hs <;>
        simp [target_capacity, current_capacity, goalPairs, lastVal, firstVal, lastRow?,
          firstRow?, goal_mappings, I0, List.filterMap])
    ⟨"Solar", by simp [renewable_sources],
      by simp [capital_cost, lastRow?, firstRow?, I0]⟩

theorem firstVal_map_mem (f : String → ℚ) (s : String) :
    ∀ l : List String, s ∈ l →
      firstVal (l.map (fun a => (a, f a))) s = some (f s) := by
  intro l
  induction l with
  | nil => simp
  | cons a rest ih =>
    intro hs
    rw [List.map_cons, firstVal]
    by_cases ha : a = s
    · subst ha; simp
    · simp only [ha, if_false]
      rcases List.mem_cons.mp hs with rfl | hs
      · exact absurd rfl ha
      · exact ih hs

theorem lastVal_map_mem (f : String → ℚ) (s : String) (l : List String) (hs : s ∈ l) :
    lastVal (l.map (fun a => (a, f a))) s = some (f s) := by
  rw [lastVal, ← List.map_reverse]
  exact firstVal_map_mem f s l.reverse (List.mem_reverse.mpr hs)

theorem slackTotal_st (M : BuiltModel) (v : Valuation) (f : String → ℚ) :
    slackTotal M { v with slack_target := f } =
      (M.filteredSources.map f).sum +
      (years.map (fun y => v.slack_min_budget y + v.slack_max_budget y)).sum +
      v.slack_renewable_capacity + v.slack_renewable_production + v.slack_emissions := rfl

/-- C3, counterexample: on `I1` every filtered source's target capacity
equals its current capacity, yet NO minimum-cost feasible solution has
zero total investment: a zero-investment solution must carry at least
the min-annual-budget in slack for each of the seven years at penalty
1.1, which costs strictly more than `valPlan` (investing the minimum
budget in Solar each year), so it cannot be minimal. -/
theorem C3_counterexample :
    ¬ ∃ v, feasible M1 v ∧ (∀ w, feasible M1 w → objective M1 v ≤ objective M1 w) ∧
      totalInvestmentMade M1 v = 0 := by
  rintro ⟨v, hf, hmin, h0⟩
  obtain ⟨⟨hinv, hst, hsl, hsrc, hsrp, hse⟩, htC, hminB, hmaxB, hrc, hrp, hem⟩ := hf
  have hle := hmin valPlan valPlan_feasible
  rw [valPlan_objective] at hle
  have hsrcinv : ∀ s ∈ M1.filteredSources, sourceInvestment v s = 0 := by
    apply sum_map_eq_zero _ _ _ h0
    intro s hs
    exact sum_map_nonneg _ _ (fun y hy => hinv s hs y hy)
  have hyr : ∀ y ∈ years, yearInvestment M1 v y = 0 := by
    intro y hy
    apply List.sum_eq_zero
    intro x hx
    rcases List.mem_map.mp hx with ⟨s, hs, rfl⟩
    exact sum_map_eq_zero years (fun y2 => v.investment s y2)
      (fun y2 hy2 => hinv s hs y2 hy2) (hsrcinv s hs) y hy
  have h24 := hminB 2024 (by simp [years]); rw [hyr 2024 (by simp [years])] at h24
  have h25 := hminB 2025 (by simp [years]); rw [hyr 2025 (by simp [years])] at h25
  have h26 := hminB 2026 (by simp [years]); rw [hyr 2026 (by simp [years])] at h26
  have h27 := hminB 2027 (by simp [years]); rw [hyr 2027 (by simp [years])] at h27
  have h28 := hminB 2028 (by simp [years]); rw [hyr 2028 (by simp [years])] at h28
  have h29 := hminB 2029 (by simp [years]); rw [hyr 2029 (by simp [years])] at h29
  have h30 := hminB 2030 (by simp [years]); rw [hyr 2030 (by simp [years])] at h30
  simp only [M1] at h24 h25 h26 h27 h28 h29 h30
  have hsm := fun y hy => (hsl y hy).2
  have hsm24 := hsm 2024 (by simp [years]); have hsm25 := hsm 2025 (by simp [years])
  have hsm26 := hsm 2026 (by simp [years]); have hsm27 := hsm 2027 (by simp [years])
  have hsm28 := hsm 2028 (by simp [years]); have hsm29 := hsm 2029 (by simp [years])
  have hsm30 := hsm 2030 (by simp [years])
  have hstS := hst "Solar" (by simp [M1]); have hstW := hst "Wind" (by simp [M1])
  have hstH := hst "Hydropower" (by simp [M1]); have hstB := hst "Biomass" (by simp [M1])
  rw [objective, h0, penalty_factor] at hle
  simp only [slackTotal, M1, years, List.map_cons, List.map_nil, List.sum_cons,
    List.sum_nil] at hle
  norm_num at hle ⊢
  linarith

/-- C3, amended: when every filtered source's target capacity equals its
current capacity, every target constraint has right-hand side 0, and any
feasible solution with positive target slack on some source is beaten by
a strictly cheaper feasible solution with that slack removed (so every
minimum-cost solution has zero target slack) — but, per the
counterexample, the minimum-cost solution need not have zero total
investment, because the min-budget constraints make investment (penalty
1) cheaper than min-budget slack (penalty 1.1). -/
theorem C3_amended (inp : Input) (M : BuiltModel) (h : (buildModel inp).2 = Except.ok M)
    (hgap : ∀ s ∈ filtered_sources inp, target_capacity inp s = current_capacity inp s) :
    (∀ s ∈ M.filteredSources, alookupD M.targetCost s = 0) ∧
    (∀ v s, feasible M v → s ∈ M.filteredSources → 0 < v.slack_target s →
      ∃ w, feasible M w ∧ objective M w < objective M v ∧ w.slack_target s = 0) := by
  obtain ⟨hfs, _, _, htc, _, _⟩ := buildModel_ok_inv inp M h
  have hzero : ∀ s ∈ M.filteredSources, alookupD M.targetCost s = 0 := by
    intro s hs
    rw [hfs] at hs
    rw [htc, alookupD, lastVal_map_mem _ _ _ hs]
    have hcc := (filtered_lookups inp s hs).2.1
    rcases Option.isSome_iff_exists.mp hcc with ⟨c, hc⟩
    simp [targetCostD, hgap s hs, hc]
  refine ⟨hzero, ?_⟩
  intro v s0 hfv hs0 hpos
  obtain ⟨⟨hinv, hst, hsl, hsrc, hsrp, hse⟩, htCv, hminB, hmaxB, hrc, hrp, hem⟩ := hfv
  refine ⟨{ v with slack_target := fun s => if s = s0 then 0 else v.slack_target s },
    ⟨⟨?_, ?_, ?_, ?_, ?_, ?_⟩, ?_, ?_, ?_, ?_, ?_, ?_⟩, ?_, ?_⟩
  · exact hinv
  · intro s hs
    by_cases hss : s = s0 <;> simp [hss, hst s hs]
  · exact hsl
  · exact hsrc
  · exact hsrp
  · exact hse
  · intro s hs
    by_cases hss : s = s0
    · subst hss
      simp only [if_pos rfl]
      rw [hzero s hs]
      have : 0 ≤ sourceInvestment v s := sum_map_nonneg _ _ (fun y hy => hinv s hs y hy)
      simpa [sourceInvestment] using this
    · simpa [hss, sourceInvestment] using htCv s hs
  · exact fun y hy => hminB y hy
  · exact fun y hy => hmaxB y hy
  · exact hrc
  · exact hrp
  · exact hem
  · have hsum : ((M.filteredSources.map
        (fun s => if s = s0 then 0 else v.slack_target s)).sum) <
        (M.filteredSources.map (fun s => v.slack_target s)).sum := by
      apply List.sum_lt_sum
      · intro a ha
        by_cases haa : a = s0
        · subst haa; simp [hst a ha]
        · simp [haa]
      · exact ⟨s0, hs0, by simp [hpos]⟩
    have hpf : (0 : ℚ) < penalty_factor := by norm_num [penalty_factor]
    have hslt : slackTotal M { v with
        slack_target := fun s => if s = s0 then 0 else v.slack_target s } <
        slackTotal M v := by
      have hA := slackTotal_st M v (fun s => if s = s0 then 0 else v.slack_target s)
      have hB : slackTotal M v =
          (M.filteredSources.map (fun s => v.slack_target s)).sum +
          (years.map (fun y => v.slack_min_budget y + v.slack_max_budget y)).sum +
          v.slack_renewable_capacity + v.slack_renewable_production +
          v.slack_emissions := rfl
      rw [hA, hB]
      linarith [hsum]
    have hmul := mul_lt_mul_of_pos_left hslt hpf
    have htot : totalInvestmentMade M { v with
        slack_target := fun s => if s = s0 then 0 else v.slack_target s } =
        totalInvestmentMade M v := rfl
    have hOA : objective M { v with
        slack_target := fun s => if s = s0 then 0 else v.slack_target s } =
        totalInvestmentMade M { v with
          slack_target := fun s => if s = s0 then 0 else v.slack_target s } +
        penalty_factor * slackTotal M { v with
          slack_target := fun s => if s = s0 then 0 else v.slack_target s } := rfl
    have hOB : objective M v =
        totalInvestmentMade M v + penalty_factor * slackTotal M v := rfl
    rw [hOA, hOB, htot]
    linarith
  · simp

/-- C3, witness: on `I1` (all target capacities equal to current
capacities) the Solar target constraint has right-hand side 0, and the
feasible solution `valSlack` (which carries one unit of Solar target
slack) is beaten by a strictly cheaper feasible solution without it. -/
theorem C3_witness :
    alookupD M1.targetCost "Solar" = 0 ∧
    ∃ w, feasible M1 w ∧ objective M1 w < objective M1 valSlack ∧
      w.slack_target "Solar" = 0 := by
  have hgap : ∀ s ∈ filtered_sources I1, target_capacity I1 s = current_capacity I1 s := by
    have hfsI1 : filtered_sources I1 = ["Solar", "Wind", "Hydropower", "Biomass"] := by
      simp [filtered_sources, sources, target_capacity, goalPairs, lastVal, firstVal,
        goal_mappings, I1, List.filterMap, List.filter]
    rw [hfsI1]
    intro s hs
    fin_cases hs <;>
      · simp [target_capacity, current_capacity, goalPairs, lastVal, firstVal, lastRow?,
          firstRow?, goal_mappings, I1, List.filterMap]
        norm_num
  have h := C3_amended I1 M1 buildI1 hgap
  exact ⟨h.1 "Solar" (by simp [M1]),
    h.2 valSlack "Solar" valSlack_feasible (by simp [M1])
      (by simp [valSlack])⟩

/-- C4, counterexample: on the built model `M2` and a valuation whose
emissions slack is 1 (above the 0.5 display threshold) with zero
investment, the report emits NO emissions warning: the emissions warning
is keyed to `emissions_produced > total_emission_target`, not to the
emissions slack variable. -/
theorem C4_counterexample :
    (buildModel I2).2 = Except.ok M2 ∧
    (0.5 : ℚ) < valEm.slack_emissions ∧
    (analyze M2 valEm).emissionsExceedWarning = none := by
  refine ⟨buildI2, by norm_num [valEm, valZero], ?_⟩
  simp [analyze, emissions_produced, M2, valEm, valZero, years, alookupD, lastVal, firstVal]

/-- C4, amended: for the five slack families target, min-budget,
max-budget, renewable-capacity and renewable-production, a solved slack
value above the 0.5 display threshold makes the report emit the
corresponding warning carrying that slack's magnitude (the production
one scaled by 1/10⁶ for display).  The emissions warning, however, is
NOT triggered by `slack_emissions > 0.5`: it is emitted exactly when
`emissions_produced` (8760 × the constraint's left-hand side) exceeds
the emission target, and carries that difference instead of the slack. -/
theorem C4_amended (M : BuiltModel) (v : Valuation) :
    (∀ s ∈ M.filteredSources, 0.5 < v.slack_target s →
      (s, v.slack_target s) ∈ (analyze M v).targetShortfallWarnings) ∧
    (∀ y ∈ years, 0.5 < v.slack_min_budget y →
      (y, v.slack_min_budget y) ∈ (analyze M v).minBudgetWarnings) ∧
    (∀ y ∈ years, 0.5 < v.slack_max_budget y →
      (y, v.slack_max_budget y) ∈ (analyze M v).maxBudgetWarnings) ∧
    (0.5 < v.slack_renewable_capacity →
      (analyze M v).renewCapWarning = some v.slack_renewable_capacity) ∧
    (0.5 < v.slack_renewable_production →
      (analyze M v).renewProdWarning = some (v.slack_renewable_production / 1000000)) ∧
    ((analyze M v).emissionsExceedWarning =
      if M.emissionTarget < emissions_produced M v
      then some (emissions_produced M v - M.emissionTarget) else none) := by
  refine ⟨?_, ?_, ?_, ?_, ?_, rfl⟩
  · intro s hs hgt
    exact List.mem_filterMap.mpr ⟨s, hs, by simp [hgt]⟩
  · intro y hy hgt
    exact List.mem_filterMap.mpr ⟨y, hy, by simp [hgt]⟩
  · intro y hy hgt
    exact List.mem_filterMap.mpr ⟨y, hy, by simp [hgt]⟩
  · intro hgt; simp [analyze, hgt]
  · intro hgt; simp [analyze, hgt]

/-- C4, witness: the amended statement instantiated at `M1` and the
valuation `valWarn` with one unit of slack in the Solar target, the 2024
budgets, and the renewable constraints. -/
theorem C4_witness :
    ("Solar", (1 : ℚ)) ∈ (analyze M1 valWarn).targetShortfallWarnings ∧
    (2024, (1 : ℚ)) ∈ (analyze M1 valWarn).minBudgetWarnings ∧
    (2024, (1 : ℚ)) ∈ (analyze M1 valWarn).maxBudgetWarnings ∧
    (analyze M1 valWarn).renewCapWarning = some 1 ∧
    (analyze M1 valWarn).renewProdWarning = some (1 / 1000000) := by
  have h := C4_amended M1 valWarn
  refine ⟨?_, ?_, ?_, ?_, ?_⟩
  · have := h.1 "Solar" (by simp [M1]) (by norm_num [valWarn, valZero])
    simpa [valWarn] using this
  · have := h.2.1 2024 (by simp [years]) (by norm_num [valWarn, valZero])
    simpa [valWarn] using this
  · have := h.2.2.1 2024 (by simp [years]) (by norm_num [valWarn, valZero])
    simpa [valWarn] using this
  · have := h.2.2.2.1 (by norm_num [valWarn, valZero])
    simpa [valWarn] using this
  · have := h.2.2.2.2.1 (by norm_num [valWarn, valZero])
    simpa [valWarn] using this

/-- C5, counterexample: with Solar investment 0.3 (below the 0.5 display
threshold but positive), the per-source total line for Solar IS printed:
the per-source total is gated by `source_investment > 0` (line 196), not
by the 0.5 threshold. -/
theorem C5_counterexample :
    ("Solar", (3 : ℚ)/10) ∈ (analyze M1 valSmall).sourceLines ∧
    ¬ ((0.5 : ℚ) < 3/10) := by
  constructor
  · simp [analyze, sourceInvestment, M1, valSmall, valZero, years, List.filterMap]
  · norm_num

/-- C5, amended: a per-source total line `(s, q)` is printed iff `s` is a
filtered source with `q = Σ_y investment(s, y) > 0` (threshold 0, not
0.5); a per-(source, year) breakdown entry is printed only when its value
exceeds the 0.5 display threshold. -/
theorem C5_amended (M : BuiltModel) (v : Valuation) (s : String) (q : ℚ) :
    ((s, q) ∈ (analyze M v).sourceLines ↔
      s ∈ M.filteredSources ∧ q = sourceInvestment v s ∧ 0 < q) ∧
    (∀ y, (s, y, q) ∈ (analyze M v).sourceYearLines →
      0.5 < q ∧ q = v.investment s y) := by
  constructor
  · simp only [analyze]
    rw [List.mem_filterMap]
    constructor
    · rintro ⟨a, ha, hsome⟩
      by_cases h0 : 0 < sourceInvestment v a
      · rw [if_pos h0] at hsome
        simp only [Option.some.injEq, Prod.mk.injEq] at hsome
        obtain ⟨rfl, rfl⟩ := hsome
        exact ⟨ha, rfl, h0⟩
      · rw [if_neg h0] at hsome; simp at hsome
    · rintro ⟨hs, rfl, h0⟩
      exact ⟨s, hs, by rw [if_pos h0]⟩
  · intro y hmem
    simp only [analyze] at hmem
    rw [List.mem_flatMap] at hmem
    obtain ⟨a, ha, hin⟩ := hmem
    by_cases h0 : 0 < sourceInvestment v a
    · rw [if_pos h0] at hin
      rw [List.mem_filterMap] at hin
      obtain ⟨y2, hy2, hsome⟩ := hin
      by_cases hq : (0.5 : ℚ) < v.investment a y2
      · rw [if_pos hq] at hsome
        simp only [Option.some.injEq, Prod.mk.injEq] at hsome
        obtain ⟨rfl, rfl, rfl⟩ := hsome
        exact ⟨hq, rfl⟩
      · rw [if_neg hq] at hsome; simp at hsome
    · rw [if_neg h0] at hin; simp at hin

/-- C5, witness: the amended statement instantiated at `M1` and the
valuation investing 0.7 in Solar in 2024. -/
theorem C5_witness :
    ("Solar", (7 : ℚ)/10) ∈ (analyze M1 valBig).sourceLines ∧
    (0.5 : ℚ) < 7/10 ∧ (7 : ℚ)/10 = valBig.investment "Solar" 2024 := by
  constructor
  · refine (C5_amended M1 valBig "Solar" (7/10)).1.mpr ⟨by simp [M1], ?_, by norm_num⟩
    simp [sourceInvestment, valBig, valZero, years]
  · refine (C5_amended M1 valBig "Solar" (7/10)).2 2024 ?_
    simp [analyze, sourceInvestment, M1, valBig, valZero, years, List.filterMap]
    norm_num

theorem valPlan_feasible_M2 : feasible M2 valPlan := by
  refine ⟨⟨?_, ?_, ?_, ?_, ?_, ?_⟩, ?_, ?_, ?_, ?_, ?_, ?_⟩ <;>
    simp [feasible, nonneg, M2, valPlan, valZero, sourceInvestment, yearInvestment,
      totalInvestmentMade, renewCapLHS, renewProdLHS, emissionsLHS, alookupD, lastVal,
      firstVal, years, renewable_sources, min_annual_budget, average_annual_investment,
      total_investment_budget] <;> norm_num

/-- C6: the `Total Emissions` quantity printed by the result analysis
equals 8760 times the `Emissions` constraint's left-hand side at the same
variable values; consequently, at a valuation satisfying the emissions
constraint with zero slack (`valCoal` on `M2`), the report still emits an
emissions-exceed-target warning. -/
theorem C6_thm :
    (∀ (M : BuiltModel) (v : Valuation),
      emissions_produced M v = 8760 * emissionsLHS M v) ∧
    ((buildModel I2).2 = Except.ok M2 ∧
      emissionsLHS M2 valCoal ≤ M2.emissionTarget + valCoal.slack_emissions ∧
      valCoal.slack_emissions = 0 ∧
      (analyze M2 valCoal).emissionsExceedWarning.isSome) := by
  constructor
  · intro M v
    rw [emissions_produced, emissionsLHS]
    have h1 : ∀ s : String,
        (years.map (fun y => v.investment s y / alookupD M.capCost s *
          alookupD M.emisFactor s * 8760)).sum =
        (years.map (fun y => v.investment s y / alookupD M.capCost s *
          alookupD M.emisFactor s)).sum * 8760 := fun s => sum_map_mul_const years _ 8760
    simp only [h1]
    rw [sum_map_mul_const]
    ring
  · refine ⟨buildI2, ?_, rfl, ?_⟩
    · simp [emissionsLHS, M2, valCoal, valZero, years, alookupD, lastVal, firstVal]
    · simp [analyze, emissions_produced, M2, valCoal, valZero, years, alookupD, lastVal,
        firstVal]

/-- C7: for every successfully built model, the renewable-production
target matches the spec's `targetProduction` formula, the emission
target equals `0.43 × targetProduction × 10⁶ + Σ_{filtered}
emissionFactor × (targetCapacity − currentCapacity) × capacityFactor ×
8760 / 10³`, and every feasible valuation satisfies
`Σ Investment/capitalCost × emissionFactor ≤ emissionTarget +
slack_emissions`. -/
theorem C7_thm (inp : Input) (M : BuiltModel) (h : (buildModel inp).2 = Except.ok M) :
    M.renewProdTarget = targetProduction_spec inp ∧
    M.emissionTarget = emissionTarget_spec inp ∧
    (∀ v, feasible M v → emissionsLHS M v ≤ M.emissionTarget + v.slack_emissions) := by
  obtain ⟨_, _, _, _, hrpt, hemt⟩ := buildModel_ok_inv inp M h
  refine ⟨hrpt, ?_, ?_⟩
  · rw [hemt, emissionTarget_spec]
    norm_num
  · intro v hv
    exact hv.2.2.2.2.2.2

/-- C7, witness: the statement instantiated at `I2` and the feasible
valuation `valPlan`. -/
theorem C7_witness :
    M2.renewProdTarget = targetProduction_spec I2 ∧
    M2.emissionTarget = emissionTarget_spec I2 ∧
    emissionsLHS M2 valPlan ≤ M2.emissionTarget + valPlan.slack_emissions := by
  have h := C7_thm I2 M2 buildI2
  exact ⟨h.1, h.2.1, h.2.2 valPlan valPlan_feasible_M2⟩

/-- C8: the minimized objective equals the sum over all (source, year)
pairs of the investment variables plus 1.1 times the sum of all slack
variables of the six families, and nothing else. -/
theorem C8_thm (M : BuiltModel) (v : Valuation) :
    objective M v = objective_spec M v := by
  rw [objective, objective_spec, totalInvestmentMade, slackTotal, penalty_factor]
  rw [sum_flatMap_eq]
  have hyears : (years.map (fun y => v.slack_min_budget y + v.slack_max_budget y)).sum =
      (years.map (fun y => v.slack_min_budget y)).sum +
      (years.map (fun y => v.slack_max_budget y)).sum := by
    simp [years]; ring
  rw [hyears]
  simp only [sourceInvestment]
  ring

theorem goalPairs_keys (inp : Input) :
    (goalPairs inp).map Prod.fst = inp.goalsData.filterMap (fun r => goal_mappings r.goal) := by
  rw [goalPairs]
  induction inp.goalsData with
  | nil => simp
  | cons r rest ih =>
    cases hgm : goal_mappings r.goal with
    | none => simp [List.filterMap_cons, hgm, ih]
    | some n => simp [List.filterMap_cons, hgm, ih]

theorem firstVal_not_mem (s : String) :
    ∀ l : List (String × ℚ), s ∉ l.map Prod.fst → firstVal l s = none := by
  intro l
  induction l with
  | nil => intro _; rfl
  | cons p rest ih =>
    intro h
    rw [List.map_cons] at h
    have h1 : ¬ (s = p.1) := fun hh => h (by rw [List.mem_cons]; exact Or.inl hh)
    have h2 : s ∉ rest.map Prod.fst := fun hh => h (by rw [List.mem_cons]; exact Or.inr hh)
    rw [firstVal, if_neg (fun hh => h1 hh.symm)]
    exact ih h2

theorem firstVal_nodup_mem (s : String) (q : ℚ) :
    ∀ l : List (String × ℚ), (l.map Prod.fst).Nodup → (s, q) ∈ l →
      firstVal l s = some q := by
  intro l
  induction l with
  | nil => simp
  | cons p rest ih =>
    intro hnd hmem
    rw [List.map_cons, List.nodup_cons] at hnd
    rw [firstVal]
    by_cases hp : p.1 = s
    · rcases List.mem_cons.mp hmem with rfl | hmem2
      · simp
      · exfalso
        apply hnd.1
        rw [hp]
        exact List.mem_map.mpr ⟨(s, q), hmem2, rfl⟩
    · rw [if_neg hp]
      rcases List.mem_cons.mp hmem with rfl | hmem2
      · exact absurd rfl hp
      · exact ih hnd.2 hmem2

theorem lastVal_nodup_mem (s : String) (q : ℚ) (l : List (String × ℚ))
    (hnd : (l.map Prod.fst).Nodup) (hmem : (s, q) ∈ l) : lastVal l s = some q := by
  rw [lastVal]
  apply firstVal_nodup_mem
  · rw [List.map_reverse]
    exact List.nodup_reverse.mpr hnd
  · exact List.mem_reverse.mpr hmem

/-- C9: the target-capacity map has an entry for exactly the sources
named by goal rows with a recognized label (unrecognized rows are
silently skipped, producing no error and no entry); when recognized
labels are not duplicated, each named source maps to its row's
`Target Value * 1000`; and the filtered source set is exactly the
sources present in both the cost relation and the target-capacity map. -/
theorem C9_thm (inp : Input) (s : String) :
    ((target_capacity inp s).isSome ↔
      ∃ r ∈ inp.goalsData, goal_mappings r.goal = some s) ∧
    ((inp.goalsData.filterMap (fun r => goal_mappings r.goal)).Nodup →
      ∀ r ∈ inp.goalsData, goal_mappings r.goal = some s →
        target_capacity inp s = some (r.targetValue * 1000)) ∧
    (s ∈ filtered_sources inp ↔ s ∈ sources inp ∧ (target_capacity inp s).isSome) := by
  refine ⟨?_, ?_, mem_filtered_iff inp s⟩
  · rw [target_capacity, lastVal_isSome]
    constructor
    · rintro ⟨p, hp, hps⟩
      rcases List.mem_filterMap.mp hp with ⟨r, hr, hfr⟩
      cases hgm : goal_mappings r.goal with
      | none => rw [hgm] at hfr; simp at hfr
      | some n =>
        rw [hgm] at hfr
        simp only [Option.map_some', Option.some.injEq] at hfr
        refine ⟨r, hr, ?_⟩
        rw [hgm, ← hps, ← hfr]
    · rintro ⟨r, hr, hgm⟩
      exact ⟨(s, r.targetValue * 1000),
        List.mem_filterMap.mpr ⟨r, hr, by rw [hgm]; rfl⟩, rfl⟩
  · intro hnd r hr hgm
    rw [target_capacity]
    apply lastVal_nodup_mem
    · rw [goalPairs_keys]
      exact hnd
    · exact List.mem_filterMap.mpr ⟨r, hr, by rw [hgm]; rfl⟩

/-- C9, witness: on `I3` (recognized Solar and Coal rows around an
unrecognized `"Fusion Capacity (GW)"` row) the map has the Solar entry,
maps Coal to `0.5 * 1000`, and Coal is a filtered source. -/
theorem C9_witness :
    (target_capacity I3 "Solar").isSome ∧
    target_capacity I3 "Coal" = some ((5 : ℚ)/10 * 1000) ∧
    "Coal" ∈ filtered_sources I3 := by
  have hnd : (I3.goalsData.filterMap (fun r => goal_mappings r.goal)).Nodup := by
    simp [I3, goal_mappings, List.filterMap]
  have hcoal : target_capacity I3 "Coal" = some ((5 : ℚ)/10 * 1000) :=
    (C9_thm I3 "Coal").2.1 hnd ⟨"Coal Capacity (GW)", 5/10⟩ (by simp [I3])
      (by simp [goal_mappings])
  refine ⟨?_, hcoal, ?_⟩
  · exact (C9_thm I3 "Solar").1.mpr ⟨⟨"Solar Capacity (GW)", 1/10⟩, by simp [I3],
      by simp [goal_mappings]⟩
  · exact (C9_thm I3 "Coal").2.2.mpr ⟨by simp [sources, I3], by rw [hcoal]; rfl⟩

/-- C10: if any of the four renewable sources is absent from the
goals-derived target-capacity map or from the cost/current-capacity
relation, the run dies with an uncaught `KeyError` while computing the
renewable-capacity/production targets (lines 115-122), and the solver is
never invoked. -/
theorem C10_thm (inp : Input)
    (h : ∃ s ∈ renewable_sources,
      target_capacity inp s = none ∨ current_capacity inp s = none) :
    ∃ ns d k, run inp = RunOutcome.buildFailed ns ⟨.renewableTargets, .keyError d k⟩ := by
  obtain ⟨ns, d, k, hbm⟩ := buildModel_renewTargets_err inp h
  exact ⟨ns, d, k, by simp [run, hbm]⟩

/-- C10, witness: the statement instantiated at `I4`, where Biomass is in
the cost table but has no goal row. -/
theorem C10_witness :
    ∃ ns d k, run I4 = RunOutcome.buildFailed ns ⟨.renewableTargets, .keyError d k⟩ :=
  C10_thm I4 ⟨"Biomass", by simp [renewable_sources],
    Or.inl (by simp [target_capacity, goalPairs, lastVal, firstVal, goal_mappings, I4,
      List.filterMap])⟩

end IndiaPlan
